import Mathlib

/-!
Verification of the ZenML configuration/activation substrate.

The repository sources under verification are:
* `src/zenml/cli/config.py` — the CLI commands for profiles (create, list,
  describe, delete, set, get); these are embedded directly below.
* `tests/integration/conftest.py` — test fixtures exercising the singleton
  reset/restore protocol and the stack provisioning lifecycle.

The core classes the CLI calls into (`GlobalConfig`, `Repository`,
`ConfigProfile`, `Stack` and the singleton instance management) are not part
of the source tree; their definitions below are modelled from the
specification (spec.md §3, §4, §5) and are marked `Modelled from the spec:`.
-/

set_option autoImplicit false

namespace ZenML

/-- Modelled from the spec: store type enum of a profile's metadata backend,
`LOCAL` plus remote-kind variants (spec §3, ConfigProfile `store_type`). -/
inductive StoreType where
  | LOCAL
  | REMOTE
  deriving DecidableEq

/-- Modelled from the spec: the error kinds of §7 raised by the missing core
classes (`NotFoundError`, `DuplicateNameError`, `ActiveResourceError`,
`ValidationError`, `ProvisioningError`). -/
inductive ConfigError where
  | NotFoundError
  | DuplicateNameError
  | ActiveResourceError
  | ValidationError
  | ProvisioningError
  deriving DecidableEq

/-- Modelled from the spec: a named record describing a metadata backend and
the stack active inside the profile (spec §3, ConfigProfile). -/
structure ConfigProfile where
  name : String
  store_url : Option String
  store_type : StoreType
  active_stack : Option String
  deriving DecidableEq

/-- Modelled from the spec: `ConfigProfile` construction validates its fields;
`store_url` is required when `store_type` is non-local, otherwise a
`ValidationError` is raised (spec §3, §7). -/
def mkConfigProfile (name : String) (store_url : Option String)
    (store_type : StoreType) : Except ConfigError ConfigProfile :=
  if store_type = StoreType.LOCAL ∨ store_url.isSome then
    .ok { name := name, store_url := store_url, store_type := store_type,
          active_stack := none }
  else
    .error .ValidationError

/-- Name lookup in an association list keyed by entity name (the `profiles`
mapping and the stack registry). -/
def lookupByName {α : Type} (name : String) : List (String × α) → Option α
  | [] => none
  | (k, a) :: rest => if k = name then some a else lookupByName name rest

/-- In-place replacement of the entry keyed `p.name`, appending when absent:
the mapping-assignment semantics of `add_or_update_profile`. -/
def upsertProfile (p : ConfigProfile) :
    List (String × ConfigProfile) → List (String × ConfigProfile)
  | [] => [(p.name, p)]
  | (k, q) :: rest =>
      if k = p.name then (k, p) :: rest else (k, q) :: upsertProfile p rest

/-- Removal of the entry keyed `name` from the `profiles` mapping. -/
def removeProfile (name : String) :
    List (String × ConfigProfile) → List (String × ConfigProfile)
  | [] => []
  | (k, q) :: rest =>
      if k = name then removeProfile name rest
      else (k, q) :: removeProfile name rest

/-- Modelled from the spec: the process-wide configuration state — the
`profiles` mapping, the globally active profile name and the analytics flag
(spec §3, GlobalConfiguration). -/
structure GlobalConfig where
  profiles : List (String × ConfigProfile)
  active_profile_name : Option String
  analytics_opt_in : Bool
  deriving DecidableEq

/-- Modelled from the spec: `get_profile(name)` is a pure lookup that never
raises, returning an absent result for unknown names (spec §4.1). -/
def GlobalConfig.get_profile (cfg : GlobalConfig) (name : String) :
    Option ConfigProfile :=
  lookupByName name cfg.profiles

/-- Modelled from the spec: `add_or_update_profile(profile)` inserts or
replaces by name; no error on overwrite (idempotent upsert, spec §4.1). -/
def GlobalConfig.add_or_update_profile (cfg : GlobalConfig)
    (p : ConfigProfile) : GlobalConfig :=
  { cfg with profiles := upsertProfile p cfg.profiles }

/-- Modelled from the spec: `activate_profile(name)` fails with
`NotFoundError` if `name` is not a known profile, otherwise swaps
`active_profile_name` (spec §4.1). -/
def GlobalConfig.activate_profile (cfg : GlobalConfig) (name : String) :
    Except ConfigError GlobalConfig :=
  if (cfg.get_profile name).isSome then
    .ok { cfg with active_profile_name := some name }
  else
    .error .NotFoundError

/-- Modelled from the spec: `delete_profile(name)` fails with `NotFoundError`
if absent and with `ActiveResourceError` if `name` is the globally active
profile, rejecting before any mutation; only then is the entry removed
(spec §4.1). -/
def GlobalConfig.delete_profile (cfg : GlobalConfig) (name : String) :
    Except ConfigError GlobalConfig :=
  if (cfg.get_profile name).isNone then
    .error .NotFoundError
  else if cfg.active_profile_name = some name then
    .error .ActiveResourceError
  else
    .ok { cfg with profiles := removeProfile name cfg.profiles }

/-- Modelled from the spec: the per-working-directory configuration state —
the local active-profile and active-stack overrides plus the anchored
directories (spec §3, Repository). -/
structure Repository where
  active_profile_name : Option String
  active_stack_name : Option String
  root : String
  original_cwd : String
  deriving DecidableEq

/-- Modelled from the spec: the activation resolver (spec §4.3) — a pure
function over (GlobalConfiguration, Repository) returning the effective
active profile: the Repository's local value if present, else the
GlobalConfiguration's global value, else absent. -/
def effective_active_profile (cfg : GlobalConfig) (repo : Repository) :
    Option String :=
  match repo.active_profile_name with
  | some n => some n
  | none => cfg.active_profile_name

/-- Modelled from the spec: `Repository.activate_profile(name)` behaves like
the global one but writes the repository-local override, validating that
`name` exists in the current GlobalConfiguration (spec §4.2). -/
def Repository.activate_profile (cfg : GlobalConfig) (repo : Repository)
    (name : String) : Except ConfigError Repository :=
  if (cfg.get_profile name).isSome then
    .ok { repo with active_profile_name := some name }
  else
    .error .NotFoundError

/-- Modelled from the spec: provisioning states of the per-Stack lifecycle
state machine (spec §4.5). -/
inductive ProvisionState where
  | UNPROVISIONED
  | PROVISIONING
  | PROVISIONED
  | DEPROVISIONING
  deriving DecidableEq

/-- Modelled from the spec: a stack component — a named instance that may or
may not manage external provisionable resources (spec §6, component
contract). -/
structure StackComponent where
  name : String
  manages_resources : Bool
  deriving DecidableEq

/-- Modelled from the spec: a Stack — a named composition of exactly one
orchestrator, one metadata store, one artifact store and an optional
container registry, owning a provisioning lifecycle (spec §3). -/
structure Stack where
  name : String
  orchestrator : StackComponent
  metadata_store : StackComponent
  artifact_store : StackComponent
  container_registry : Option StackComponent
  provision_state : ProvisionState
  deriving DecidableEq

/-- Modelled from the spec: `provision()` idempotently ensures the stack's
resources exist and are running; a no-op when already `PROVISIONED`
(spec §4.5). The synchronous call ends in a final state, so the transient
`PROVISIONING` state is not observable; `ok` abstracts whether the external
resource operations succeed, and when they fail the call raises
`ProvisioningError` rather than silently reporting success. -/
def Stack.provision (s : Stack) (ok : Bool) : Except ConfigError Stack :=
  if s.provision_state = ProvisionState.PROVISIONED then
    .ok s
  else if ok then
    .ok { s with provision_state := ProvisionState.PROVISIONED }
  else
    .error .ProvisioningError

/-- Modelled from the spec: `deprovision()` idempotently tears resources
down; safe to call when already `UNPROVISIONED` (spec §4.5). `ok` abstracts
the external teardown outcome, irrelevant when there is nothing to tear
down. -/
def Stack.deprovision (s : Stack) (ok : Bool) : Except ConfigError Stack :=
  if s.provision_state = ProvisionState.UNPROVISIONED then
    .ok s
  else if ok then
    .ok { s with provision_state := ProvisionState.UNPROVISIONED }
  else
    .error .ProvisioningError

/-- A registry of stacks keyed by name (the target scope of stack
registration). -/
abbrev StackRegistry := List (String × Stack)

/-- Modelled from the spec: `register_stack(stack)` fails with
`DuplicateNameError` if a stack with the same name already exists in the
target scope (spec §4.4). -/
def register_stack (reg : StackRegistry) (s : Stack) :
    Except ConfigError StackRegistry :=
  if (lookupByName s.name reg).isSome then
    .error .DuplicateNameError
  else
    .ok (reg ++ [(s.name, s)])

/-- Modelled from the spec: the holder of a lazily constructed singleton
instance (spec §3, §5): `GlobalConfig` and `Repository` expose
`get_instance` and `_reset_instance` over such a holder. -/
structure SingletonRef (α : Type) where
  inst : Option α
  deriving DecidableEq

/-- Modelled from the spec: return the currently installed singleton
instance (conftest.py `get_instance`). -/
def SingletonRef.get_instance {α : Type} (h : SingletonRef α) : Option α :=
  h.inst

/-- Modelled from the spec: swap out the live singleton and install the given
instance — or none at all — in its place (conftest.py `_reset_instance`);
restoring passes the previously saved instance back in. -/
def SingletonRef.reset_instance {α : Type} (_ : SingletonRef α)
    (prev : Option α) : SingletonRef α :=
  { inst := prev }

/-- Modelled from the spec: the reset operation of §5: atomically swap out
the live singleton for a fresh (absent) one and return the handle to the
previous instance. -/
def SingletonRef.reset {α : Type} (h : SingletonRef α) :
    Option α × SingletonRef α :=
  (h.inst, { inst := none })

/-- Modelled from the spec: re-install the exact instance whose handle was
returned by `reset` (spec §5). -/
def SingletonRef.restore {α : Type} (_ : SingletonRef α) (saved : Option α) :
    SingletonRef α :=
  { inst := saved }

/-! ## The CLI layer (embedded from `src/zenml/cli/config.py`)

Each CLI command is a function from the pair of singletons it reads to the
possibly-updated pair, together with the error it reports through
`cli_utils.error`, if any. Where the Python code reads
`Repository().active_profile_name`, the read resolves through the activation
resolver (local value if present, else global): in `conftest.py` a freshly
constructed `Repository` with no local override immediately serves
`repo.active_stack`, which requires the fallback to the global active
profile. -/

/-- The mutable state a CLI command sees: the two singletons. -/
structure CliState where
  cfg : GlobalConfig
  repo : Repository
  deriving DecidableEq

/-- The errors the CLI commands report via `cli_utils.error`, one constructor
per call site, carrying the offending entity's name. -/
inductive CliError where
  | profileAlreadyExists (name : String)
  | profileDoesNotExist (name : String)
  | deleteGloballyActive (name : String)
  | deleteLocallyActive (name : String)
  | errorActivatingProfile (e : ConfigError)
  | coreError (e : ConfigError)
  deriving DecidableEq

/-- `zenml profile create NAME [--url u] [--store-type t]`
(config.py `create_profile_command`): reject an existing name, then construct
and upsert the validated profile. -/
def create_profile_command (st : CliState) (name : String)
    (url : Option String) (store_type : StoreType) :
    CliState × Option CliError :=
  if (st.cfg.get_profile name).isSome then
    (st, some (.profileAlreadyExists name))
  else
    match mkConfigProfile name url store_type with
    | .error e => (st, some (.coreError e))
    | .ok p => ({ st with cfg := st.cfg.add_or_update_profile p }, none)

/-- `zenml profile delete NAME` (config.py `delete_profile`): reject an
absent name, a globally active name and a locally active name — in that
order — before invoking the core deletion. -/
def delete_profile (st : CliState) (name : String) :
    CliState × Option CliError :=
  if (st.cfg.get_profile name).isNone then
    (st, some (.profileDoesNotExist name))
  else if st.cfg.active_profile_name = some name then
    (st, some (.deleteGloballyActive name))
  else if effective_active_profile st.cfg st.repo = some name then
    (st, some (.deleteLocallyActive name))
  else
    match st.cfg.delete_profile name with
    | .error e => (st, some (.coreError e))
    | .ok cfg' => ({ st with cfg := cfg' }, none)

/-- `zenml profile set NAME [--global]` (config.py `set_active_profile`):
short-circuit when `NAME` is already the active profile, otherwise activate
it; on an activation failure report the error and, when a previous active
profile exists, re-invoke activation with the previous name (the explicit
compensating action of config.py lines 296-306). -/
def set_active_profile (st : CliState) (name : String)
    (global_profile : Bool) : CliState × Option CliError :=
  let current : Option String :=
    if global_profile then st.cfg.active_profile_name
    else effective_active_profile st.cfg st.repo
  if current = some name then
    (st, none)
  else if global_profile then
    match st.cfg.activate_profile name with
    | .ok cfg' => ({ st with cfg := cfg' }, none)
    | .error e =>
      match current with
      | some prev =>
        match st.cfg.activate_profile prev with
        | .ok cfg' => ({ st with cfg := cfg' }, some (.errorActivatingProfile e))
        | .error _ => (st, some (.errorActivatingProfile e))
      | none => (st, some (.errorActivatingProfile e))
  else
    match Repository.activate_profile st.cfg st.repo name with
    | .ok repo' => ({ st with repo := repo' }, none)
    | .error e =>
      match current with
      | some prev =>
        match Repository.activate_profile st.cfg st.repo prev with
        | .ok repo' => ({ st with repo := repo' }, some (.errorActivatingProfile e))
        | .error _ => (st, some (.errorActivatingProfile e))
      | none => (st, some (.errorActivatingProfile e))

/-- `zenml profile get` (config.py `get_active_profile`): report the globally
active profile and the locally active (effective) profile. -/
def get_active_profile (st : CliState) : Option String × Option String :=
  (st.cfg.active_profile_name, effective_active_profile st.cfg st.repo)

/-- The function-scoped fixture cycle of conftest.py (`clean_kubeflow_repo`
over `clean_repo`): save the live Repository singleton, install a fresh
Repository that registers and activates the module-scoped stack by name, and
restore the saved instance afterwards. The module-scoped `Stack` value is
carried alongside the holder; the Repository records only the stack's name,
never the stack or its provisioned resources. -/
def clean_kubeflow_cycle (w : SingletonRef Repository × Stack)
    (fresh : Repository) : SingletonRef Repository × Stack :=
  let saved := w.1.get_instance
  let fresh' := { fresh with active_stack_name := some w.2.name }
  ((w.1.reset_instance (some fresh')).reset_instance saved, w.2)

/-! ## Sample values for concrete instantiations -/

/-- The default local profile. -/
def defaultProfile : ConfigProfile :=
  { name := "default", store_url := none, store_type := StoreType.LOCAL,
    active_stack := none }

/-- A profile named `"g"`. -/
def gProfile : ConfigProfile :=
  { name := "g", store_url := none, store_type := StoreType.LOCAL,
    active_stack := none }

/-- A profile named `"l"`. -/
def lProfile : ConfigProfile :=
  { name := "l", store_url := none, store_type := StoreType.LOCAL,
    active_stack := none }

/-- A configuration with a single profile `"default"`, globally active. -/
def sampleConfig : GlobalConfig :=
  { profiles := [("default", defaultProfile)],
    active_profile_name := some "default", analytics_opt_in := false }

/-- A configuration with no profiles and no active profile. -/
def emptyConfig : GlobalConfig :=
  { profiles := [], active_profile_name := none, analytics_opt_in := false }

/-- A configuration knowing profiles `"g"` and `"l"`, with `"g"` globally
active. -/
def glConfig : GlobalConfig :=
  { profiles := [("g", gProfile), ("l", lProfile)],
    active_profile_name := some "g", analytics_opt_in := false }

/-- A repository with no local overrides. -/
def sampleRepo : Repository :=
  { active_profile_name := none, active_stack_name := none,
    root := "/tmp/project", original_cwd := "/tmp" }

/-- A repository whose local active profile is `"l"`. -/
def lRepo : Repository :=
  { sampleRepo with active_profile_name := some "l" }

/-- The kubeflow stack of conftest.py, unprovisioned. -/
def kubeflowStack : Stack :=
  { name := "local_kubeflow_stack",
    orchestrator :=
      { name := "local_kubeflow_orchestrator", manages_resources := true },
    metadata_store :=
      { name := "local_kubeflow_metadata_store", manages_resources := true },
    artifact_store :=
      { name := "local_kubeflow_artifact_store", manages_resources := false },
    container_registry :=
      some { name := "local_registry", manages_resources := false },
    provision_state := ProvisionState.UNPROVISIONED }

/-- The kubeflow stack after provisioning. -/
def provisionedKubeflowStack : Stack :=
  { kubeflowStack with provision_state := ProvisionState.PROVISIONED }

/-! ## Helper lemmas -/

/-- After an upsert, looking the profile up by its name finds exactly the
upserted profile. -/
theorem lookupByName_upsertProfile (p : ConfigProfile)
    (l : List (String × ConfigProfile)) :
    lookupByName p.name (upsertProfile p l) = some p := by
  induction l with
  | nil => simp [upsertProfile, lookupByName]
  | cons e rest ih =>
    obtain ⟨k, q⟩ := e
    by_cases h : k = p.name <;>
      simp [upsertProfile, lookupByName, h, ih]

/-- Upserting a profile whose name is absent appends a single entry. -/
theorem upsertProfile_absent (p : ConfigProfile)
    (l : List (String × ConfigProfile))
    (h : lookupByName p.name l = none) :
    upsertProfile p l = l ++ [(p.name, p)] := by
  induction l with
  | nil => simp [upsertProfile]
  | cons e rest ih =>
    obtain ⟨k, q⟩ := e
    by_cases hk : k = p.name
    · simp [lookupByName, hk] at h
    · simp [lookupByName, hk] at h
      simp [upsertProfile, hk, ih h]

/-- Looking up the appended key in a registry that did not contain it finds
the appended value. -/
theorem lookupByName_append_self {α : Type} (k : String) (a : α)
    (l : List (String × α)) (h : lookupByName k l = none) :
    lookupByName k (l ++ [(k, a)]) = some a := by
  induction l with
  | nil => simp [lookupByName]
  | cons e rest ih =>
    obtain ⟨k', b⟩ := e
    by_cases hk : k' = k
    · simp [lookupByName, hk] at h
    · simp [lookupByName, hk] at h
      simp [lookupByName, hk, ih h]

/-! ## Claims -/

/-- C1: activating a known profile `n` at repository scope succeeds and
makes the effective active profile `n`; activating it globally succeeds,
makes the globally active profile `n`, and — when no local override is
present — makes the effective active profile `n`; the CLI `set` command
short-circuits into a non-erroring no-op when `n` is already active, at
either scope; activating an unknown name fails with `NotFoundError` at
either scope. -/
theorem activate_profile_c1 (cfg : GlobalConfig) (repo : Repository)
    (n : String) :
    ((cfg.get_profile n).isSome →
      ∃ repo', Repository.activate_profile cfg repo n = .ok repo' ∧
        effective_active_profile cfg repo' = some n) ∧
    ((cfg.get_profile n).isSome →
      ∃ cfg', cfg.activate_profile n = .ok cfg' ∧
        cfg'.active_profile_name = some n ∧
        (repo.active_profile_name = none →
          effective_active_profile cfg' repo = some n)) ∧
    (effective_active_profile cfg repo = some n →
      set_active_profile ⟨cfg, repo⟩ n false = (⟨cfg, repo⟩, none)) ∧
    (cfg.active_profile_name = some n →
      set_active_profile ⟨cfg, repo⟩ n true = (⟨cfg, repo⟩, none)) ∧
    (cfg.get_profile n = none →
      Repository.activate_profile cfg repo n = .error .NotFoundError ∧
      cfg.activate_profile n = .error .NotFoundError) := by
  refine ⟨?_, ?_, ?_, ?_, ?_⟩
  · intro h
    refine ⟨{ repo with active_profile_name := some n }, ?_, ?_⟩
    · simp [Repository.activate_profile, h]
    · simp [effective_active_profile]
  · intro h
    refine ⟨{ cfg with active_profile_name := some n }, ?_, rfl, ?_⟩
    · simp [GlobalConfig.activate_profile, h]
    · intro hr
      simp [effective_active_profile, hr]
  · intro h
    simp [set_active_profile, h]
  · intro h
    simp [set_active_profile, h]
  · intro h
    constructor
    · simp [Repository.activate_profile, h]
    · simp [GlobalConfig.activate_profile, h]

/-- C1 witness: in the sample state, repository activation of the known
profile `"default"` succeeds and is the effective profile; `set --global`
on the already-active `"default"` is a no-op without error; activating
unknown `"ghost"` fails with `NotFoundError`. -/
theorem activate_profile_c1_witness :
    (∃ repo',
      Repository.activate_profile sampleConfig sampleRepo "default" =
        .ok repo' ∧
      effective_active_profile sampleConfig repo' = some "default") ∧
    set_active_profile ⟨sampleConfig, sampleRepo⟩ "default" true =
      (⟨sampleConfig, sampleRepo⟩, none) ∧
    Repository.activate_profile sampleConfig sampleRepo "ghost" =
      .error .NotFoundError :=
  ⟨(activate_profile_c1 sampleConfig sampleRepo "default").1 (by decide),
   (activate_profile_c1 sampleConfig sampleRepo "default").2.2.2.1
     (by decide),
   ((activate_profile_c1 sampleConfig sampleRepo "ghost").2.2.2.2
     (by decide)).1⟩

/-- C2: the activation resolver applies local-over-global precedence: it
returns the Repository's local active value whenever one is present, and
the GlobalConfiguration's global value otherwise — in particular, absent
when neither is set. -/
theorem resolver_precedence_c2 (cfg : GlobalConfig) (repo : Repository) :
    (∀ l, repo.active_profile_name = some l →
      effective_active_profile cfg repo = some l) ∧
    (repo.active_profile_name = none →
      effective_active_profile cfg repo = cfg.active_profile_name) ∧
    (repo.active_profile_name = none → cfg.active_profile_name = none →
      effective_active_profile cfg repo = none) := by
  refine ⟨?_, ?_, ?_⟩
  · intro l h; simp [effective_active_profile, h]
  · intro h; simp [effective_active_profile, h]
  · intro h h'; simp [effective_active_profile, h, h']

/-- C2 witness: with global active `"g"` and local active `"l"` the
effective profile is `"l"`; with no local override it is `"g"`; with
neither set it is absent. -/
theorem resolver_precedence_c2_witness :
    effective_active_profile glConfig lRepo = some "l" ∧
    effective_active_profile glConfig sampleRepo = some "g" ∧
    effective_active_profile emptyConfig sampleRepo = none :=
  ⟨(resolver_precedence_c2 glConfig lRepo).1 "l" rfl,
   ((resolver_precedence_c2 glConfig sampleRepo).2.1 rfl).trans rfl,
   (resolver_precedence_c2 emptyConfig sampleRepo).2.2 rfl rfl⟩

/-- C3: deleting the globally active profile always fails with
`ActiveResourceError` — the rejection happens before any mutation, so in
this functional embedding the error result carries no changed `profiles`
mapping and the caller's configuration is untouched; deleting an absent
name fails with `NotFoundError`; and the repository-level (locally active)
check is performed by the CLI `delete` command before invoking the core
deletion, returning the input state unchanged with a locally-active
error. -/
theorem delete_profile_c3 (cfg : GlobalConfig) (repo : Repository)
    (n : String) :
    ((cfg.get_profile n).isSome → cfg.active_profile_name = some n →
      cfg.delete_profile n = .error .ActiveResourceError) ∧
    (cfg.get_profile n = none →
      cfg.delete_profile n = .error .NotFoundError) ∧
    ((cfg.get_profile n).isSome → cfg.active_profile_name ≠ some n →
      effective_active_profile cfg repo = some n →
      delete_profile ⟨cfg, repo⟩ n =
        (⟨cfg, repo⟩, some (.deleteLocallyActive n))) := by
  refine ⟨?_, ?_, ?_⟩
  · intro h ha
    obtain ⟨p, hp⟩ := Option.isSome_iff_exists.mp h
    simp [GlobalConfig.delete_profile, hp, ha]
  · intro h
    simp [GlobalConfig.delete_profile, h]
  · intro h ha he
    obtain ⟨p, hp⟩ := Option.isSome_iff_exists.mp h
    simp [delete_profile, hp, ha, he]

/-- C3 witness: deleting the globally active `"default"` fails with
`ActiveResourceError`; deleting absent `"ghost"` fails with
`NotFoundError`; with `"g"` globally and `"l"` locally active, the CLI
delete of `"l"` is rejected by the locally-active check with the state
unchanged. -/
theorem delete_profile_c3_witness :
    sampleConfig.delete_profile "default" =
      .error ConfigError.ActiveResourceError ∧
    sampleConfig.delete_profile "ghost" = .error ConfigError.NotFoundError ∧
    delete_profile ⟨glConfig, lRepo⟩ "l" =
      (⟨glConfig, lRepo⟩, some (CliError.deleteLocallyActive "l")) :=
  ⟨(delete_profile_c3 sampleConfig sampleRepo "default").1 (by decide) rfl,
   (delete_profile_c3 sampleConfig sampleRepo "ghost").2.1 (by decide),
   (delete_profile_c3 glConfig lRepo "l").2.2 (by decide) (by decide)
     rfl⟩

/-- C4: when activation of `n` fails (unknown name) while `prev` was the
active profile, the CLI `set` command reports the error, the previous
active profile name remains observable, and the calling layer's explicit
compensating action — catching the failure and re-invoking
`activate_profile` with `prev` — restores the pre-call active profile:
at global scope the globally active name is `prev` afterwards, and at
repository scope the effective active profile is `prev` afterwards. -/
theorem activation_failure_c4 (cfg : GlobalConfig) (repo : Repository)
    (n prev : String)
    (hprev : cfg.active_profile_name = some prev)
    (hknown : (cfg.get_profile prev).isSome)
    (hfail : cfg.get_profile n = none) :
    (set_active_profile ⟨cfg, repo⟩ n true).1.cfg.active_profile_name =
      some prev ∧
    (set_active_profile ⟨cfg, repo⟩ n true).2 =
      some (.errorActivatingProfile .NotFoundError) ∧
    (effective_active_profile cfg repo = some prev →
      effective_active_profile (set_active_profile ⟨cfg, repo⟩ n false).1.cfg
          (set_active_profile ⟨cfg, repo⟩ n false).1.repo = some prev ∧
      (set_active_profile ⟨cfg, repo⟩ n false).2 =
        some (.errorActivatingProfile .NotFoundError)) := by
  have hne : prev ≠ n := by
    intro he
    rw [he, hfail] at hknown
    simp at hknown
  constructor
  · simp [set_active_profile, hprev, hne, GlobalConfig.activate_profile,
      hfail, hknown]
  constructor
  · simp [set_active_profile, hprev, hne, GlobalConfig.activate_profile,
      hfail, hknown]
  · intro he
    have h1 : set_active_profile ⟨cfg, repo⟩ n false =
        (⟨cfg, { repo with active_profile_name := some prev }⟩,
          some (.errorActivatingProfile .NotFoundError)) := by
      simp [set_active_profile, he, hne, Repository.activate_profile,
        hfail, hknown]
    rw [h1]
    exact ⟨rfl, rfl⟩

/-- C4 witness: in the sample state with active profile `"default"`,
setting the unknown profile `"ghost"` fails, keeps `"default"` observable
as the globally active profile, and the repository-scope variant keeps
`"default"` as the effective profile. -/
theorem activation_failure_c4_witness :
    (set_active_profile ⟨sampleConfig, sampleRepo⟩ "ghost"
        true).1.cfg.active_profile_name = some "default" ∧
    (set_active_profile ⟨sampleConfig, sampleRepo⟩ "ghost" true).2 =
      some (.errorActivatingProfile .NotFoundError) ∧
    effective_active_profile
        (set_active_profile ⟨sampleConfig, sampleRepo⟩ "ghost" false).1.cfg
        (set_active_profile ⟨sampleConfig, sampleRepo⟩ "ghost" false).1.repo =
      some "default" :=
  ⟨(activation_failure_c4 sampleConfig sampleRepo "ghost" "default" rfl
      (by decide) (by decide)).1,
   (activation_failure_c4 sampleConfig sampleRepo "ghost" "default" rfl
      (by decide) (by decide)).2.1,
   ((activation_failure_c4 sampleConfig sampleRepo "ghost" "default" rfl
      (by decide) (by decide)).2.2 rfl).1⟩

/-- C5: creating a fresh profile with a remote store type and no URL fails
with `ValidationError` and returns the state — and so the `profiles`
mapping — unchanged; creating it with a URL succeeds, appends exactly one
entry to the `profiles` mapping, leaves both active-profile pointers
untouched, and hence leaves the effective active profile unchanged (the
new profile is not active until explicitly activated). -/
theorem create_profile_c5 (st : CliState) (n u : String)
    (habs : st.cfg.get_profile n = none) :
    create_profile_command st n none StoreType.REMOTE =
      (st, some (.coreError .ValidationError)) ∧
    ∃ p, mkConfigProfile n (some u) StoreType.REMOTE = .ok p ∧
      p.name = n ∧
      create_profile_command st n (some u) StoreType.REMOTE =
        ({ st with
            cfg := { st.cfg with
              profiles := st.cfg.profiles ++ [(n, p)] } }, none) ∧
      effective_active_profile
          (create_profile_command st n (some u) StoreType.REMOTE).1.cfg
          (create_profile_command st n (some u) StoreType.REMOTE).1.repo =
        effective_active_profile st.cfg st.repo := by
  constructor
  · simp [create_profile_command, mkConfigProfile, habs]
  · refine ⟨⟨n, some u, StoreType.REMOTE, none⟩, ?_, rfl, ?_, ?_⟩
    · simp [mkConfigProfile]
    · simp [create_profile_command, mkConfigProfile, habs,
        GlobalConfig.add_or_update_profile]
      exact upsertProfile_absent _ _ habs
    · simp [create_profile_command, mkConfigProfile, habs,
        GlobalConfig.add_or_update_profile, effective_active_profile]

/-- C5 witness: in the empty configuration, creating `"staging"` with a
remote store type and no URL fails with `ValidationError` leaving the
state unchanged, and creating it with a URL succeeds and appends exactly
one entry. -/
theorem create_profile_c5_witness :
    create_profile_command ⟨emptyConfig, sampleRepo⟩ "staging" none
        StoreType.REMOTE =
      (⟨emptyConfig, sampleRepo⟩, some (.coreError .ValidationError)) ∧
    ∃ p, mkConfigProfile "staging" (some "http://zenml.example.com:8080")
          StoreType.REMOTE = .ok p ∧
      p.name = "staging" ∧
      create_profile_command ⟨emptyConfig, sampleRepo⟩ "staging"
          (some "http://zenml.example.com:8080") StoreType.REMOTE =
        ({ cfg := { emptyConfig with
              profiles := emptyConfig.profiles ++ [("staging", p)] },
           repo := sampleRepo }, none) :=
  ⟨(create_profile_c5 ⟨emptyConfig, sampleRepo⟩ "staging"
      "http://zenml.example.com:8080" rfl).1,
   ((create_profile_c5 ⟨emptyConfig, sampleRepo⟩ "staging"
      "http://zenml.example.com:8080" rfl).2.imp
        fun _ h => ⟨h.1, h.2.1, h.2.2.1⟩)⟩

/-- C6: after registering a stack and provisioning it once, a second
`provision()` call — under any external-resource outcome — does not raise
and leaves the stack in state `PROVISIONED`: provisioning is idempotent
and safe to call when already provisioned. -/
theorem provision_idempotent_c6 (reg reg' : StackRegistry) (s s1 : Stack)
    (ok1 ok2 : Bool)
    (hreg : register_stack reg s = .ok reg')
    (hp : s.provision ok1 = .ok s1) :
    s1.provision ok2 = .ok s1 ∧
    s1.provision_state = ProvisionState.PROVISIONED ∧
    lookupByName s.name reg' = some s := by
  have hs1 : s1.provision_state = ProvisionState.PROVISIONED := by
    by_cases h : s.provision_state = ProvisionState.PROVISIONED
    · simp [Stack.provision, h] at hp
      rw [← hp, h]
    · cases ok1 with
      | false => simp [Stack.provision, h] at hp
      | true =>
        simp [Stack.provision, h] at hp
        rw [← hp]
  refine ⟨by simp [Stack.provision, hs1], hs1, ?_⟩
  have hr : (lookupByName s.name reg).isSome = false := by
    by_contra hc
    simp [register_stack, eq_true_of_ne_false hc] at hreg
  rw [register_stack, hr] at hreg
  simp only [Bool.false_eq_true, if_false, Except.ok.injEq] at hreg
  rw [← hreg]
  exact lookupByName_append_self s.name s reg
    (Option.not_isSome_iff_eq_none.mp (by simp [hr]))

/-- C6 witness: the kubeflow stack registers into the empty registry and,
once provisioned, a second `provision()` call with a failing external
environment still succeeds and keeps the stack `PROVISIONED`. -/
theorem provision_idempotent_c6_witness :
    provisionedKubeflowStack.provision false = .ok provisionedKubeflowStack ∧
    provisionedKubeflowStack.provision_state =
      ProvisionState.PROVISIONED ∧
    lookupByName kubeflowStack.name
      [(kubeflowStack.name, kubeflowStack)] = some kubeflowStack :=
  provision_idempotent_c6 [] [(kubeflowStack.name, kubeflowStack)]
    kubeflowStack provisionedKubeflowStack true false rfl rfl

/-- C7: `deprovision()` on a stack in state `UNPROVISIONED` — one that has
never been provisioned — does not raise, is a no-op, and leaves the stack
in state `UNPROVISIONED`, under any external-resource outcome. -/
theorem deprovision_noop_c7 (s : Stack) (ok : Bool)
    (h : s.provision_state = ProvisionState.UNPROVISIONED) :
    s.deprovision ok = .ok s ∧
    s.provision_state = ProvisionState.UNPROVISIONED := by
  exact ⟨by simp [Stack.deprovision, h], h⟩

/-- C7 witness: deprovisioning the never-provisioned kubeflow stack with a
failing external environment is still a no-op returning the stack
unchanged. -/
theorem deprovision_noop_c7_witness :
    kubeflowStack.deprovision false = .ok kubeflowStack ∧
    kubeflowStack.provision_state = ProvisionState.UNPROVISIONED :=
  deprovision_noop_c7 kubeflowStack false rfl

/-- C8: the singleton reset/restore pair is a round-trip: `reset()` hands
back the previous instance, and `restore(saved)` — applied to whatever
holder state intervening work left behind — yields a configuration
observably identical to the one before `reset()`: same `profiles`, same
`active_profile_name`. -/
theorem reset_restore_roundtrip_c8 (h h' : SingletonRef GlobalConfig)
    (cfg : GlobalConfig) (hs : h.get_instance = some cfg) :
    h.reset.1 = some cfg ∧
    ∃ cfg2, (h'.restore h.reset.1).get_instance = some cfg2 ∧
      cfg2.profiles = cfg.profiles ∧
      cfg2.active_profile_name = cfg.active_profile_name := by
  have h1 : h.reset.1 = some cfg := hs
  exact ⟨h1, cfg, by rw [SingletonRef.restore, SingletonRef.get_instance, h1],
    rfl, rfl⟩

/-- C8 witness: resetting a holder carrying the sample configuration and
restoring the saved handle into an emptied holder yields a configuration
with the same profiles and the same active profile. -/
theorem reset_restore_roundtrip_c8_witness :
    (SingletonRef.reset ⟨some sampleConfig⟩).1 = some sampleConfig ∧
    ∃ cfg2,
      (SingletonRef.restore (⟨none⟩ : SingletonRef GlobalConfig)
          (SingletonRef.reset ⟨some sampleConfig⟩).1).get_instance =
        some cfg2 ∧
      cfg2.profiles = sampleConfig.profiles ∧
      cfg2.active_profile_name = sampleConfig.active_profile_name :=
  reset_restore_roundtrip_c8 ⟨some sampleConfig⟩ ⟨none⟩ sampleConfig rfl

/-- C9: a module-scoped provisioned stack survives any number of
function-scoped Repository-singleton reset cycles: after folding the
conftest.py reset/register/restore cycle over any list of fresh
repositories, the stack is still in state `PROVISIONED` and the Repository
singleton holder is back to its original state — Repository state does not
own the stack's provisioned resources. -/
theorem stack_survives_resets_c9 (hold : SingletonRef Repository)
    (s : Stack) (fs : List Repository)
    (hp : s.provision_state = ProvisionState.PROVISIONED) :
    (fs.foldl clean_kubeflow_cycle (hold, s)).2.provision_state =
      ProvisionState.PROVISIONED ∧
    (fs.foldl clean_kubeflow_cycle (hold, s)).1 = hold := by
  have key : ∀ w : SingletonRef Repository × Stack, ∀ f : Repository,
      clean_kubeflow_cycle w f = w := fun w f => rfl
  have hfold : fs.foldl clean_kubeflow_cycle (hold, s) = (hold, s) := by
    induction fs with
    | nil => rfl
    | cons a t ih => simpa [List.foldl, key] using ih
  rw [hfold]
  exact ⟨hp, rfl⟩

/-- C9 witness: the provisioned kubeflow stack survives two function-scoped
reset cycles of the Repository singleton, which itself returns to its
original holder state. -/
theorem stack_survives_resets_c9_witness :
    ([sampleRepo, sampleRepo].foldl clean_kubeflow_cycle
        (⟨some sampleRepo⟩, provisionedKubeflowStack)).2.provision_state =
      ProvisionState.PROVISIONED ∧
    ([sampleRepo, sampleRepo].foldl clean_kubeflow_cycle
        (⟨some sampleRepo⟩, provisionedKubeflowStack)).1 =
      ⟨some sampleRepo⟩ :=
  stack_survives_resets_c9 ⟨some sampleRepo⟩ provisionedKubeflowStack
    [sampleRepo, sampleRepo] rfl

/-- C10: the CLI `create` command never overwrites an existing profile:
whenever `get_profile(name)` is present, `create_profile_command` reports
an already-exists error and returns the state — and so the `profiles`
mapping — unchanged, even though the underlying `add_or_update_profile`
is itself an error-free (total) upsert under which a lookup finds the
upserted profile. -/
theorem create_no_overwrite_c10 (st : CliState) (n : String)
    (u : Option String) (t : StoreType) (p : ConfigProfile)
    (hex : st.cfg.get_profile n = some p) :
    create_profile_command st n u t =
      (st, some (.profileAlreadyExists n)) ∧
    ∀ q : ConfigProfile,
      (st.cfg.add_or_update_profile q).get_profile q.name = some q := by
  constructor
  · simp [create_profile_command, hex]
  · intro q
    exact lookupByName_upsertProfile q st.cfg.profiles

/-- C10 witness: creating `"default"`, which already exists in the sample
configuration, reports an already-exists error with the state unchanged,
while directly upserting the same profile would succeed and be found. -/
theorem create_no_overwrite_c10_witness :
    create_profile_command ⟨sampleConfig, sampleRepo⟩ "default" none
        StoreType.LOCAL =
      (⟨sampleConfig, sampleRepo⟩,
        some (.profileAlreadyExists "default")) ∧
    (sampleConfig.add_or_update_profile defaultProfile).get_profile
        defaultProfile.name = some defaultProfile :=
  ⟨(create_no_overwrite_c10 ⟨sampleConfig, sampleRepo⟩ "default" none
      StoreType.LOCAL defaultProfile rfl).1,
   (create_no_overwrite_c10 ⟨sampleConfig, sampleRepo⟩ "default" none
      StoreType.LOCAL defaultProfile rfl).2 defaultProfile⟩

end ZenML
